import Mathlib

/-!
Verification of the whisper-typing repository's audio capture buffer and
keystroke emission loop, as implemented in
`src/whisper_typing/audio_capture.py` and `src/whisper_typing/typer.py`.

The embedding is sequential: the recorder's fields become a record, the
callback/start/stop methods become state transformers, and the FIFO frame
queue (`queue.Queue`) becomes a list whose `put` appends at the back and
whose `get` removes from the front.  Audio samples are abstracted to
integers (the claims under study concern ordering and presence of data,
never the numeric value of a sample), and WAV-file serialization — pure
I/O — is abstracted away: `stop` here returns the concatenated drained
array that the Python code scales and writes to the temporary file.
-/

namespace WhisperTyping

/-- One audio chunk: the block of samples delivered by a single
`sounddevice` callback invocation (`indata.copy()`). -/
abbrev Chunk := List Int

/-- The mutable fields of `AudioRecorder` (audio_capture.py, lines 11-17):
`sample_rate`, `channels`, `recording`, `frames` (a FIFO queue of chunks)
and `thread` (modelled as a flag: `false` for `None`, `true` once a
background thread object has been created). -/
structure RecorderState where
  sampleRate : Nat
  channels : Nat
  recording : Bool
  frames : List Chunk
  thread : Bool
deriving Repr, DecidableEq

/-- `AudioRecorder.__init__(sample_rate, channels)`: recording off, empty
frame queue, no thread (audio_capture.py, lines 12-17). -/
def initRecorder (sampleRate channels : Nat) : RecorderState :=
  { sampleRate := sampleRate, channels := channels, recording := false,
    frames := [], thread := false }

/-- `AudioRecorder._callback` (audio_capture.py, lines 19-23): after an
optional status print, `self.frames.put(indata.copy())` enqueues the chunk
at the back of the FIFO queue. -/
def callback (s : RecorderState) (indata : Chunk) : RecorderState :=
  { s with frames := s.frames ++ [indata] }

/-- `AudioRecorder.start` (audio_capture.py, lines 35-44): returns at once
when already recording; otherwise sets the flag, replaces `frames` with a
fresh empty queue, and spawns the background `_record` thread. -/
def start (s : RecorderState) : RecorderState :=
  if s.recording then s
  else { s with recording := true, frames := [], thread := true }

/-- `AudioRecorder.stop` (audio_capture.py, lines 46-77): returns `None`
at once when not recording; otherwise clears the flag, joins the thread,
drains the queue front-to-back into `data`, returns `None` when `data` is
empty, and otherwise `np.concatenate(data, axis=0)` — here the flattening
`List.flatten` of the drained chunks.  Scaling the concatenation to int16 and
writing it to a temporary WAV file is I/O and is abstracted: the payload
returned here is the concatenated array the file is built from. -/
def stop (s : RecorderState) : RecorderState × Option (List Int) :=
  if s.recording then
    let data := s.frames
    let s1 : RecorderState := { s with recording := false, frames := [] }
    if data.isEmpty then (s1, none) else (s1, some data.flatten)
  else (s, none)

/-- `AudioRecorder._record` (audio_capture.py, lines 25-33): enters
`sd.InputStream(...)` — whose construction may raise, modelled by the
`streamOpen` argument — and then only sleeps in 100 ms increments while
`self.recording` holds; the loop body writes no recorder field (chunks
arrive through `_callback`, a separate transition).  The source wraps
nothing in `try/except`, so an error raised while opening the stream
propagates to the caller and the recorder state is left untouched. -/
def record (streamOpen : Except String Unit) (s : RecorderState) :
    Except String RecorderState :=
  match streamOpen with
  | Except.error e => Except.error e
  | Except.ok _ => Except.ok s

/-- States reachable by the recorder's public lifecycle: construction,
`start`, a callback delivery (which the audio subsystem only performs
while the capture stream is open, i.e. while recording), and `stop`. -/
inductive Reachable : RecorderState → Prop
  | construct : ∀ sr ch, Reachable (initRecorder sr ch)
  | stepStart : ∀ s, Reachable s → Reachable (start s)
  | stepCallback : ∀ s chunk, Reachable s → s.recording = true →
      Reachable (callback s chunk)
  | stepStop : ∀ s, Reachable s → Reachable (stop s).1

/-- Folding a sequence of callback deliveries appends the chunks, in
order, at the back of the frame queue and changes nothing else. -/
lemma foldl_callback (chunks : List Chunk) (s : RecorderState) :
    chunks.foldl callback s = { s with frames := s.frames ++ chunks } := by
  induction chunks generalizing s with
  | nil => simp
  | cons c cs ih =>
      rw [List.foldl_cons, ih]
      simp [callback]

/-- A recorder that is not recording has an empty frame queue, in every
reachable state. -/
lemma reachable_not_recording_frames_nil {s : RecorderState}
    (h : Reachable s) : s.recording = false → s.frames = [] := by
  induction h with
  | construct sr ch => intro _; rfl
  | stepStart s hs ih =>
      intro hrec
      by_cases hr : s.recording
      · rw [start, if_pos hr] at hrec ⊢; exact ih hrec
      · rw [start, if_neg hr] at hrec; simp at hrec
  | stepCallback s chunk hs hrec ih =>
      intro hcontra
      rw [callback] at hcontra
      simp at hcontra
      rw [hrec] at hcontra
      exact absurd hcontra (by simp)
  | stepStop s hs ih =>
      intro _
      by_cases hr : s.recording
      · rw [stop, if_pos hr]
        by_cases hd : s.frames.isEmpty <;> simp [hd]
      · rw [stop, if_neg hr]
        exact ih (by simpa using hr)

/-!
Embedding of `src/whisper_typing/typer.py`.  `Typer.type_text` returns
early on empty text and otherwise, per character, calls
`self.keyboard.type(char)` followed by `time.sleep(0.005)`.  The keystroke
sink (`Controller.type`) may raise; the loop body wraps nothing in
`try/except`, so a sink error propagates out of `type_text` immediately.
The run is recorded as a trace of events — one `typed` event per sink call
and one `slept` event per sleep — paired with the exception that escaped,
when one did.  The sleep duration does not influence the source's control
flow (the tests mock `time.sleep`), so it is a parameter of the trace
semantics here; the source fixes it at 0.005 s (`sleepDelay`).
-/

/-- One observable action of `type_text`: a call to the keystroke sink, or
a `time.sleep` of the given duration (in seconds, as an exact rational). -/
inductive TyperEvent
  | typed (c : Char)
  | slept (d : ℚ)
deriving Repr, DecidableEq

/-- The per-character sleep hard-coded in the source:
`time.sleep(0.005)` (typer.py, line 21). -/
def sleepDelay : ℚ := 5 / 1000

/-- The character loop of `Typer.type_text` (typer.py, lines 19-21): call
the sink on the character (the `typed` event records the call); when the
sink raises, the exception propagates — the loop aborts with the error and
the remaining characters are never attempted; otherwise sleep and
continue. -/
def typeTextGo (sink : Char → Except String Unit) (d : ℚ) :
    List Char → List TyperEvent × Option String
  | [] => ([], none)
  | c :: cs =>
    match sink c with
    | Except.error e => ([TyperEvent.typed c], some e)
    | Except.ok _ =>
      let r := typeTextGo sink d cs
      (TyperEvent.typed c :: TyperEvent.slept d :: r.1, r.2)

/-- `Typer.type_text` (typer.py, lines 8-21): `if not text: return`, then
the per-character loop.  The signature takes only the text — there is no
cancellation or focus parameter in the source. -/
def typeText (sink : Char → Except String Unit) (d : ℚ)
    (text : List Char) : List TyperEvent × Option String :=
  if text.isEmpty then ([], none) else typeTextGo sink d text

/-- The characters passed to the keystroke sink, in call order. -/
def emittedChars : List TyperEvent → List Char
  | [] => []
  | TyperEvent.typed c :: es => c :: emittedChars es
  | TyperEvent.slept _ :: es => emittedChars es

/-- The durations of the sleeps performed, in order. -/
def sleptDurations : List TyperEvent → List ℚ
  | [] => []
  | TyperEvent.typed _ :: es => sleptDurations es
  | TyperEvent.slept d :: es => d :: sleptDurations es

/-- A keystroke sink that never raises. -/
def okSink : Char → Except String Unit := fun _ => Except.ok ()

/-- A keystroke sink that raises on every character. -/
def errSink (msg : String) : Char → Except String Unit :=
  fun _ => Except.error msg

/-- Each run of `typeTextGo` with a never-raising sink passes every
character of the text to the sink, in order. -/
lemma emittedChars_typeTextGo_okSink (d : ℚ) (text : List Char) :
    emittedChars (typeTextGo okSink d text).1 = text := by
  induction text with
  | nil => rfl
  | cons c cs ih => simp [typeTextGo, okSink, emittedChars, ih]

/-- C1: starting a non-recording recorder and then delivering any nonempty
sequence of chunks through the capture callback, stop() drains the buffer and
returns exactly the concatenation of the delivered chunks in append order. -/
theorem c1_stop_returns_concat (s : RecorderState) (chunks : List Chunk)
    (h : s.recording = false) (hne : chunks ≠ []) :
    (stop (chunks.foldl callback (start s))).2 = some chunks.flatten := by
  rw [start, if_neg (by simp [h]), foldl_callback]
  rw [stop]
  simp [hne]

/-- C1 witness: two chunks appended after start come back concatenated. -/
theorem c1_witness :
    (initRecorder 16000 1).recording = false ∧
    ([[1, 2], [3]] : List Chunk) ≠ [] ∧
    (stop (([[1, 2], [3]] : List Chunk).foldl callback
        (start (initRecorder 16000 1)))).2 = some [1, 2, 3] :=
  ⟨rfl, by decide, c1_stop_returns_concat _ _ rfl (by decide)⟩

/-- C5: stopping a recording whose buffer holds no chunks returns the absent
signal (`none`), never a present-but-empty array. -/
theorem c5_stop_empty_buffer_absent (s : RecorderState)
    (h : s.recording = true) (hf : s.frames = []) : (stop s).2 = none := by
  rw [stop, if_pos h]
  simp [hf]

/-- C5 witness: stop right after start (no chunks captured) yields `none`. -/
theorem c5_witness :
    (start (initRecorder 16000 1)).recording = true ∧
    (start (initRecorder 16000 1)).frames = [] ∧
    (stop (start (initRecorder 16000 1))).2 = none :=
  ⟨rfl, rfl, c5_stop_empty_buffer_absent _ rfl rfl⟩

/-- C6: calling stop() on a recorder that is not recording is a no-op: it
returns the absent signal and leaves every field of the state unchanged. -/
theorem c6_stop_not_recording_noop (s : RecorderState)
    (h : s.recording = false) : stop s = (s, none) := by
  rw [stop, if_neg (by simp [h])]

/-- C6 witness: stop before any start on a fresh recorder. -/
theorem c6_witness :
    (initRecorder 16000 1).recording = false ∧
    stop (initRecorder 16000 1) = (initRecorder 16000 1, none) :=
  ⟨rfl, c6_stop_not_recording_noop _ rfl⟩

/-- C7: start() while already recording is a no-op leaving all state
unchanged; start() while not recording sets the recording flag, resets the
buffer to empty (discarding previously captured chunks), records the spawned
background thread, and leaves the configuration fields unchanged. -/
theorem c7_start_spec (s : RecorderState) :
    (s.recording = true → start s = s) ∧
    (s.recording = false →
      start s = { s with recording := true, frames := [], thread := true }) := by
  constructor
  · intro h; rw [start, if_pos h]
  · intro h; rw [start, if_neg (by simp [h])]

/-- C7 witness: both branches at concrete states holding a stale chunk. -/
theorem c7_witness :
    start { sampleRate := 16000, channels := 1, recording := true,
            frames := [[7]], thread := true }
      = { sampleRate := 16000, channels := 1, recording := true,
          frames := [[7]], thread := true } ∧
    start { sampleRate := 16000, channels := 1, recording := false,
            frames := [[7]], thread := true }
      = { sampleRate := 16000, channels := 1, recording := true,
          frames := [], thread := true } :=
  ⟨(c7_start_spec _).1 rfl, (c7_start_spec _).2 rfl⟩

/-- C10: in every reachable recorder state, once stop() returns the recording
flag is false and the frame buffer is empty, so an immediately following
stop() returns the absent signal. -/
theorem c10_stop_post (s : RecorderState) (h : Reachable s) :
    (stop s).1.recording = false ∧ (stop s).1.frames = [] ∧
    (stop (stop s).1).2 = none := by
  have hmain : (stop s).1.recording = false ∧ (stop s).1.frames = [] := by
    by_cases hr : s.recording
    · rw [stop, if_pos hr]
      by_cases hd : s.frames.isEmpty <;> simp [hd]
    · have hrec : s.recording = false := by simpa using hr
      rw [stop, if_neg (by simp [hrec])]
      exact ⟨hrec, reachable_not_recording_frames_nil h hrec⟩
  refine ⟨hmain.1, hmain.2, ?_⟩
  rw [stop, if_neg (by simp [hmain.1])]

/-- C10 witness: the fresh recorder is reachable; both stops return absent. -/
theorem c10_witness :
    (stop (initRecorder 16000 1)).1.recording = false ∧
    (stop (initRecorder 16000 1)).1.frames = [] ∧
    (stop (stop (initRecorder 16000 1)).1).2 = none :=
  c10_stop_post _ (Reachable.construct 16000 1)

/-- C8: with a functioning sink, type_text("Hi. Yes!") makes exactly one sink
call per input character — eight in all — whatever sleep duration is injected
between emissions, and type_text("") makes no sink call. -/
theorem c8_typeText_counts (d : ℚ) :
    emittedChars (typeText okSink d "Hi. Yes!".toList).1 = "Hi. Yes!".toList ∧
    (emittedChars (typeText okSink d "Hi. Yes!".toList).1).length = 8 ∧
    (typeText okSink d "".toList).1 = [] := by
  refine ⟨?_, ?_, rfl⟩
  · show emittedChars (typeTextGo okSink d "Hi. Yes!".toList).1 = _
    exact emittedChars_typeTextGo_okSink d _
  · show (emittedChars (typeTextGo okSink d "Hi. Yes!".toList).1).length = 8
    rw [emittedChars_typeTextGo_okSink]
    rfl

/-- C2 (code at the failing input of test_record_exception_handling): the
source `_record` wraps nothing in try/except, so when opening the input
stream raises "Stream error" on a recorder whose flag is on, the exception
propagates to the caller instead of being caught, and the state — the flag
included — is left untouched. -/
theorem c2_record_error_propagates :
    record (Except.error "Stream error")
        { sampleRate := 16000, channels := 1, recording := true,
          frames := [], thread := false }
      = Except.error "Stream error" :=
  rfl

/-- C3 (code at the failing input of test_type_text_exception_handling): a
sink that raises on every character aborts type_text("Hello") at the first
character — only 'H' is ever passed to the sink, the remaining four
characters are never attempted, and the exception escapes uncaught. -/
theorem c3_sink_error_aborts :
    typeText (errSink "Keyboard error") sleepDelay "Hello".toList
      = ([TyperEvent.typed 'H'], some "Keyboard error") :=
  rfl

/-- C4 (code at the failing input of test_type_text_stop_event): the source
type_text takes no stop_event (or focus) parameter and performs no
per-character cancellation check, so on "Hello" every one of the five
characters is passed to the sink — no pre-set event can make it emit zero. -/
theorem c4_no_cancellation :
    emittedChars (typeText okSink sleepDelay "Hello".toList).1
      = "Hello".toList :=
  rfl

/-- C9 (code versus the claimed pacing model): every sleep type_text performs
has the one fixed duration 0.005 s — one per character, with no jitter and no
extra pause after '.' or '!' — and 0.005 is not 60/(wpm×5) at any of the
tests' rates (wpm = 40, 60, 100). -/
theorem c9_fixed_delay :
    sleptDurations (typeText okSink sleepDelay "Hi. Yes!".toList).1
      = List.replicate 8 sleepDelay ∧
    sleepDelay ≠ 60 / (40 * 5) ∧ sleepDelay ≠ 60 / (60 * 5) ∧
    sleepDelay ≠ 60 / (100 * 5) := by
  refine ⟨rfl, ?_, ?_, ?_⟩ <;> norm_num [sleepDelay]

end WhisperTyping
